import Mathlib

/-!
Verification of the Lornexa backend profile service (src/main.py).

The service is a CRUD HTTP API over a single relational table of profile
rows.  We embed it shallowly: the store is the list of persisted rows (in
rowid order, as the file-based backend returns them), and each route
handler is a function from the store and its request arguments to the new
store paired with an HTTP-level response.  The persistence step (commit)
can fail; that possibility is made explicit by a fault parameter carrying
the error text of the raised exception, mirroring the except-rollback
blocks of the handlers.  Fresh ids are generated as max existing id plus
one, the allocation rule of the default file-based backend.

Two behaviours of the source are modelled exactly as written, not as the
surrounding comments intend: the create route declares no success status so
the framework default 200 applies, and in the update and delete handlers
the not-found exception is raised inside the try block, so the blanket
except clause catches it, rolls back, and re-raises it as a 500 whose
detail is the string form of the original exception.
-/

/-- Input shape (ProfileCreate in main.py): first_name required text, every
other field optional text. -/
structure ProfileCreate where
  first_name : String
  last_name : Option String
  gender : Option String
  country : Option String
  ethnicity : Option String
  marital_status : Option String
  date_of_birth : Option String
  autistic : Option String
  deriving DecidableEq, Repr

/-- A persisted row (the Profile SQLAlchemy model / ProfileResponse output
shape): the input fields plus the server-generated integer id.  The
first_name column is declared nullable=False, so the field is a plain
String here, not an Option. -/
structure Profile where
  id : Nat
  first_name : String
  last_name : Option String
  gender : Option String
  country : Option String
  ethnicity : Option String
  marital_status : Option String
  date_of_birth : Option String
  autistic : Option String
  deriving DecidableEq, Repr

/-- The persisted state: the rows of the profiles table in rowid order. -/
abbrev Store := List Profile

/-- The empty profiles table, the state right after startup table creation. -/
def emptyStore : Store := []

/-- An HTTP-level outcome: a success status with a serialized body, or an
HTTPException with a status code and a detail string. -/
inductive Resp (α : Type) where
  | ok : Nat → α → Resp α
  | err : Nat → String → Resp α
  deriving DecidableEq, Repr

/-- The status code of a response, successful or not. -/
def Resp.status {α : Type} : Resp α → Nat
  | Resp.ok st _ => st
  | Resp.err st _ => st

/-- Largest element of a list of ids (0 when empty). -/
def maxIds (l : List Nat) : Nat := l.foldl max 0

/-- The id the backend assigns to the next inserted row: max rowid plus
one, the allocation rule of the default file-based engine. -/
def freshId (s : Store) : Nat := maxIds (s.map Profile.id) + 1

/-- The row built by the create handler from a payload and a generated id
(the Profile constructor call in create_profile, field by field). -/
def mkRow (i : Nat) (p : ProfileCreate) : Profile :=
  { id := i, first_name := p.first_name, last_name := p.last_name,
    gender := p.gender, country := p.country, ethnicity := p.ethnicity,
    marital_status := p.marital_status, date_of_birth := p.date_of_birth,
    autistic := p.autistic }

/-- The setattr loop of update_profile: profile.dict() yields exactly the
eight payload fields, so every stored field except id is overwritten with
the payload value (None included). -/
def setFields (r : Profile) (p : ProfileCreate) : Profile :=
  { r with
    first_name := p.first_name, last_name := p.last_name,
    gender := p.gender, country := p.country, ethnicity := p.ethnicity,
    marital_status := p.marital_status, date_of_birth := p.date_of_birth,
    autistic := p.autistic }

/-- db.query(Profile).filter(Profile.id == i).first(): the first row whose
id matches, if any. -/
def findRow : Store → Nat → Option Profile
  | [], _ => none
  | r :: rs, i => if r.id = i then some r else findRow rs i

/-- Effect of the update handler on the table: the first row whose id
matches has all its payload fields overwritten; all other rows are kept. -/
def updateRows : Store → Nat → ProfileCreate → Store
  | [], _, _ => []
  | r :: rs, i, p => if r.id = i then setFields r p :: rs else r :: updateRows rs i p

/-- Effect of db.delete on the table: the first row whose id matches is
removed. -/
def eraseRow : Store → Nat → Store
  | [], _ => []
  | r :: rs, i => if r.id = i then rs else r :: eraseRow rs i

/-- The fixed detail of the explicit HTTPException(404) raises. -/
def notFoundDetail : String := "Profile not found"

/-- What the blanket except clause of update_profile and delete_profile
turns the in-try HTTPException(404) into: str(e) of that exception, which
renders as status colon detail. -/
def caughtNotFound : String := "404: Profile not found"

/-- POST /api/profiles.  The fault argument is the error text of the
exception raised by the persistence step, if any: on fault the handler
rolls back (state unchanged) and answers 500 with the raw error text; on
success it inserts the new row and returns it with the framework default
status 200 (the route declares no status_code). -/
def create_profile (s : Store) (p : ProfileCreate) (fault : Option String) :
    Store × Resp Profile :=
  match fault with
  | some e => (s, Resp.err 500 e)
  | none => (s ++ [mkRow (freshId s) p], Resp.ok 200 (mkRow (freshId s) p))

/-- GET /api/profiles/id: fetch the row or answer 404 with the fixed
message (this handler has no except clause, so the 404 escapes intact). -/
def get_profile (s : Store) (i : Nat) : Store × Resp Profile :=
  match findRow s i with
  | none => (s, Resp.err 404 notFoundDetail)
  | some r => (s, Resp.ok 200 r)

/-- GET /api/profiles: every row, in store order. -/
def get_all_profiles (s : Store) : Store × Resp (List Profile) :=
  (s, Resp.ok 200 s)

/-- PUT /api/profiles/id.  When no row matches, the HTTPException(404) is
raised inside the try block, caught by except Exception, and re-raised as
a 500 whose detail is str of the original exception.  When a row matches,
a persistence fault rolls back and answers 500 with the raw error text;
otherwise every payload field of the row is overwritten and the updated
row is returned. -/
def update_profile (s : Store) (i : Nat) (p : ProfileCreate) (fault : Option String) :
    Store × Resp Profile :=
  match findRow s i with
  | none => (s, Resp.err 500 caughtNotFound)
  | some r =>
    match fault with
    | some e => (s, Resp.err 500 e)
    | none => (updateRows s i p, Resp.ok 200 (setFields r p))

/-- DELETE /api/profiles/id.  The missing-row HTTPException(404) is caught
and converted to a 500 exactly as in update_profile; on success the row is
removed and a confirmation message returned. -/
def delete_profile (s : Store) (i : Nat) (fault : Option String) :
    Store × Resp String :=
  match findRow s i with
  | none => (s, Resp.err 500 caughtNotFound)
  | some _ =>
    match fault with
    | some e => (s, Resp.err 500 e)
    | none => (eraseRow s i, Resp.ok 200 "Profile deleted successfully")

/-- The root endpoint payload: message, status and backend identity. -/
structure RootResponse where
  message : String
  status : String
  database : String
  deriving DecidableEq, Repr

/-- GET slash: reports the backend identity derived from the configured
connection string; touches no row. -/
def read_root (s : Store) (databaseUrl : String) : Store × RootResponse :=
  (s, { message := "Lornexa Backend API", status := "running",
        database := if databaseUrl.startsWith ("sqlite") then "SQLite" else "PostgreSQL" })

/-- Run a sequence of successful creates, threading the store. -/
def createMany (s : Store) (ps : List ProfileCreate) : Store :=
  ps.foldl (fun t p => (create_profile t p none).1) s

/-- The ids a run of creates hands out: len consecutive integers from
start. -/
def idsFrom (start len : Nat) : List Nat :=
  match len with
  | 0 => []
  | n + 1 => start :: idsFrom (start + 1) n

/-- A payload that sets only the required first_name field. -/
def onlyFirstName (name : String) : ProfileCreate :=
  { first_name := name, last_name := none, gender := none, country := none,
    ethnicity := none, marital_status := none, date_of_birth := none,
    autistic := none }

/-- Concrete payload used by the witnesses, after the example in the spec. -/
def pAna : ProfileCreate := onlyFirstName ("Ana")

/-- The spec example update payload: first_name Ana, country PT, all else
omitted. -/
def pAnaPT : ProfileCreate :=
  { onlyFirstName ("Ana") with country := some ("PT") }

/-- Concrete one-row store used by the witnesses. -/
def demoStore : Store := [mkRow 1 pAna]

theorem le_foldl_max (l : List Nat) (acc : Nat) : acc ≤ l.foldl max acc := by
  induction l generalizing acc with
  | nil => exact Nat.le_refl acc
  | cons b t ih => exact Nat.le_trans (Nat.le_max_left acc b) (ih (max acc b))

theorem mem_le_foldl_max {a : Nat} (l : List Nat) (acc : Nat) (h : a ∈ l) :
    a ≤ l.foldl max acc := by
  induction l generalizing acc with
  | nil => cases h
  | cons b t ih =>
    rcases List.mem_cons.mp h with h1 | h2
    · subst h1
      exact Nat.le_trans (Nat.le_max_right acc a) (le_foldl_max t (max acc a))
    · exact ih (max acc b) h2

theorem id_lt_freshId {s : Store} {r : Profile} (h : r ∈ s) : r.id < freshId s :=
  Nat.lt_succ_of_le (mem_le_foldl_max (s.map Profile.id) 0 (List.mem_map_of_mem Profile.id h))

theorem freshId_not_mem (s : Store) : freshId s ∉ s.map Profile.id := by
  intro h
  rcases List.mem_map.mp h with ⟨r, hr, hid⟩
  have hlt := id_lt_freshId hr
  omega

theorem findRow_eq_none {s : Store} {i : Nat} (h : ∀ r ∈ s, r.id ≠ i) :
    findRow s i = none := by
  induction s with
  | nil => rfl
  | cons b t ih =>
    have hb : b.id ≠ i := h b (List.mem_cons_self b t)
    simp only [findRow, if_neg hb]
    exact ih (fun x hx => h x (List.mem_cons_of_mem b hx))

theorem findRow_some_id {s : Store} {i : Nat} {r : Profile}
    (h : findRow s i = some r) : r.id = i := by
  induction s with
  | nil => cases h
  | cons b t ih =>
    by_cases hb : b.id = i
    · simp only [findRow, if_pos hb] at h
      cases h
      exact hb
    · simp only [findRow, if_neg hb] at h
      exact ih h

theorem findRow_append_left_none {s t : Store} {i : Nat}
    (h : findRow s i = none) : findRow (s ++ t) i = findRow t i := by
  induction s with
  | nil => rfl
  | cons b bs ih =>
    by_cases hb : b.id = i
    · simp only [findRow, if_pos hb] at h
      cases h
    · simp only [List.cons_append, findRow, if_neg hb] at h ⊢
      exact ih h

theorem findRow_updateRows {s : Store} {i : Nat} {r : Profile} (p : ProfileCreate)
    (h : findRow s i = some r) :
    findRow (updateRows s i p) i = some (setFields r p) := by
  induction s with
  | nil => cases h
  | cons b t ih =>
    by_cases hb : b.id = i
    · simp only [findRow, if_pos hb] at h
      cases h
      have hb2 : (setFields r p).id = i := hb
      simp only [updateRows, if_pos hb, findRow, if_pos hb2]
    · simp only [findRow, if_neg hb] at h
      simp only [updateRows, if_neg hb, findRow, if_neg hb]
      exact ih h

theorem updateRows_map_id (s : Store) (i : Nat) (p : ProfileCreate) :
    (updateRows s i p).map Profile.id = s.map Profile.id := by
  induction s with
  | nil => rfl
  | cons b t ih =>
    by_cases hb : b.id = i
    · simp only [updateRows, if_pos hb, List.map_cons]
      rfl
    · simp only [updateRows, if_neg hb, List.map_cons, ih]

theorem mem_updateRows {s : Store} {i : Nat} {p : ProfileCreate} {r : Profile}
    (h : r ∈ updateRows s i p) : r.first_name = p.first_name ∨ r ∈ s := by
  induction s with
  | nil => cases h
  | cons b t ih =>
    by_cases hb : b.id = i
    · simp only [updateRows, if_pos hb] at h
      rcases List.mem_cons.mp h with h1 | h2
      · left
        rw [h1]
        rfl
      · right
        exact List.mem_cons_of_mem b h2
    · simp only [updateRows, if_neg hb] at h
      rcases List.mem_cons.mp h with h1 | h2
      · right
        rw [h1]
        exact List.mem_cons_self b t
      · rcases ih h2 with h3 | h4
        · left; exact h3
        · right; exact List.mem_cons_of_mem b h4

theorem maxIds_append_one (l : List Nat) (a : Nat) :
    maxIds (l ++ [a]) = max (maxIds l) a := by
  simp [maxIds, List.foldl_append]

theorem freshId_append (s : Store) (p : ProfileCreate) :
    freshId (s ++ [mkRow (freshId s) p]) = freshId s + 1 := by
  unfold freshId
  rw [List.map_append]
  have hid : ([mkRow (maxIds (s.map Profile.id) + 1) p].map Profile.id) =
      [maxIds (s.map Profile.id) + 1] := rfl
  rw [hid, maxIds_append_one, Nat.max_eq_right (Nat.le_succ _)]

theorem idsFrom_length (len : Nat) : ∀ start, (idsFrom start len).length = len := by
  induction len with
  | zero => intro start; rfl
  | succ n ih =>
    intro start
    simp only [idsFrom, List.length_cons, ih]

theorem createMany_rows (ps : List ProfileCreate) :
    ∀ s : Store, createMany s ps = s ++ List.zipWith mkRow (idsFrom (freshId s) ps.length) ps := by
  induction ps with
  | nil => intro s; simp [createMany, idsFrom]
  | cons p ps ih =>
    intro s
    have h1 : createMany s (p :: ps) = createMany (s ++ [mkRow (freshId s) p]) ps := rfl
    rw [h1, ih, freshId_append]
    simp only [List.length_cons, idsFrom, List.zipWith, List.append_assoc,
      List.singleton_append]

/-- Claim C1: for every profile id present in the store and every update
payload, update(id, newShape) followed by get(id) returns exactly newShape
merged with id: every field omitted from newShape (hence None in the
payload) reads back as null, never as its prior stored value. -/
theorem update_then_get_is_full_replace (s : Store) (i : Nat) (p : ProfileCreate)
    (h : (findRow s i).isSome) :
    get_profile (update_profile s i p none).1 i =
      ((update_profile s i p none).1, Resp.ok 200 (mkRow i p)) := by
  rcases Option.isSome_iff_exists.mp h with ⟨r, hr⟩
  have hid : r.id = i := findRow_some_id hr
  have hupd : update_profile s i p none = (updateRows s i p, Resp.ok 200 (setFields r p)) := by
    simp [update_profile, hr]
  rw [hupd]
  have hfind : findRow (updateRows s i p) i = some (setFields r p) :=
    findRow_updateRows p hr
  have hsf : setFields r p = mkRow i p := by
    rw [← hid]
    exact rfl
  simp [get_profile, hfind, hsf]

/-- Witness for C1 at the spec example: store holding row 1 (Ana), update
with first_name Ana and country PT. -/
theorem update_then_get_is_full_replace_witness :
    (findRow demoStore 1).isSome ∧
      get_profile (update_profile demoStore 1 pAnaPT none).1 1 =
        ((update_profile demoStore 1 pAnaPT none).1, Resp.ok 200 (mkRow 1 pAnaPT)) :=
  ⟨by decide, update_then_get_is_full_replace demoStore 1 pAnaPT (by decide)⟩

/-- Claim C2: creating a profile whose payload sets only first_name
succeeds with the full row: a freshly generated id (not present among the
stored ids) and every field other than id and first_name null. -/
theorem create_minimal_payload (s : Store) (name : String) :
    (create_profile s (onlyFirstName name) none).2 =
      Resp.ok 200
        { id := freshId s, first_name := name, last_name := none,
          gender := none, country := none, ethnicity := none,
          marital_status := none, date_of_birth := none, autistic := none } ∧
      freshId s ∉ s.map Profile.id :=
  ⟨rfl, freshId_not_mem s⟩

/-- Witness for C2: creating Ana in the empty store. -/
theorem create_minimal_payload_witness :
    (create_profile emptyStore (onlyFirstName ("Ana")) none).2 =
      Resp.ok 200
        { id := freshId emptyStore, first_name := "Ana", last_name := none,
          gender := none, country := none, ethnicity := none,
          marital_status := none, date_of_birth := none, autistic := none } ∧
      freshId emptyStore ∉ emptyStore.map Profile.id :=
  create_minimal_payload emptyStore ("Ana")

/-- Claim C3: the row P returned by a successful create is read back
verbatim: create returns ok with P, and get(P.id) on the resulting store
returns ok with exactly P, every text field unmodified. -/
theorem create_then_get_roundtrip (s : Store) (p : ProfileCreate) :
    (create_profile s p none).2 = Resp.ok 200 (mkRow (freshId s) p) ∧
      get_profile (create_profile s p none).1 (mkRow (freshId s) p).id =
        ((create_profile s p none).1, Resp.ok 200 (mkRow (freshId s) p)) := by
  refine ⟨rfl, ?_⟩
  have hfresh : findRow s (freshId s) = none :=
    findRow_eq_none (fun r hr => Nat.ne_of_lt (id_lt_freshId hr))
  have hfind : findRow (s ++ [mkRow (freshId s) p]) (freshId s) =
      some (mkRow (freshId s) p) := by
    rw [findRow_append_left_none hfresh]
    simp [findRow, mkRow]
  have hidm : (mkRow (freshId s) p).id = freshId s := rfl
  rw [hidm]
  simp [get_profile, create_profile, hfind]

/-- Claim C4: get(id) for an id with no matching row answers the
404-equivalent with the fixed message, leaving the store as is. -/
theorem get_missing_is_not_found (s : Store) (i : Nat)
    (h : ∀ r ∈ s, r.id ≠ i) :
    get_profile s i = (s, Resp.err 404 notFoundDetail) := by
  have hnone := findRow_eq_none h
  simp [get_profile, hnone]

/-- Witness for C4: getting id 5 from the empty store. -/
theorem get_missing_is_not_found_witness :
    (∀ r ∈ emptyStore, r.id ≠ 5) ∧
      get_profile emptyStore 5 = (emptyStore, Resp.err 404 notFoundDetail) :=
  ⟨fun r hr => absurd hr (List.not_mem_nil r),
    get_missing_is_not_found emptyStore 5 (fun r hr => absurd hr (List.not_mem_nil r))⟩

/-- Claim C5 evidence (code bug): delete followed by get is indeed
not-found, but delete of a never-created id does NOT answer 404: the
handler's own HTTPException(404) is raised inside the try block, caught by
the blanket except Exception, and re-raised as a 500 whose detail is the
string form of the 404.  Evaluated at the concrete failing input, deleting
id 7 from the empty store. -/
theorem delete_missing_behavior :
    (get_profile (delete_profile (create_profile emptyStore pAna none).1 1 none).1 1).2 =
      Resp.err 404 notFoundDetail ∧
      delete_profile emptyStore 7 none = (emptyStore, Resp.err 500 caughtNotFound) := by
  constructor
  · rfl
  · rfl

/-- Claim C6: whenever the persistence step of a write operation raises,
the transaction is rolled back so the store is unchanged, and the failure
surfaces as a 500 whose detail is the raw underlying error text; each
operation is all-or-nothing. -/
theorem write_fault_rolls_back :
    (∀ (s : Store) (p : ProfileCreate) (e : String),
        create_profile s p (some e) = (s, Resp.err 500 e)) ∧
      (∀ (s : Store) (i : Nat) (p : ProfileCreate) (e : String),
        (findRow s i).isSome → update_profile s i p (some e) = (s, Resp.err 500 e)) ∧
      (∀ (s : Store) (i : Nat) (e : String),
        (findRow s i).isSome → delete_profile s i (some e) = (s, Resp.err 500 e)) := by
  refine ⟨fun s p e => rfl, fun s i p e h => ?_, fun s i e h => ?_⟩
  · rcases Option.isSome_iff_exists.mp h with ⟨r, hr⟩
    simp [update_profile, hr]
  · rcases Option.isSome_iff_exists.mp h with ⟨r, hr⟩
    simp [delete_profile, hr]

/-- Witness for C6: a disk-full persistence fault on each write operation
against the one-row demo store. -/
theorem write_fault_rolls_back_witness :
    create_profile demoStore pAnaPT (some ("disk full")) = (demoStore, Resp.err 500 ("disk full")) ∧
      update_profile demoStore 1 pAnaPT (some ("disk full")) = (demoStore, Resp.err 500 ("disk full")) ∧
      delete_profile demoStore 1 (some ("disk full")) = (demoStore, Resp.err 500 ("disk full")) :=
  ⟨write_fault_rolls_back.1 demoStore pAnaPT ("disk full"),
    write_fault_rolls_back.2.1 demoStore 1 pAnaPT ("disk full") (by decide),
    write_fault_rolls_back.2.2 demoStore 1 ("disk full") (by decide)⟩

/-- Claim C7 counterexample: the create route declares no success status,
so the framework answers with its default 200, not a 201-equivalent —
shown at the concrete input of creating Ana in the empty store. -/
theorem create_status_not_201 :
    Resp.status (create_profile emptyStore pAna none).2 = 200 ∧
      Resp.status (create_profile emptyStore pAna none).2 ≠ 201 := by
  constructor
  · rfl
  · decide

/-- Claim C7 as amended: on success the create operation responds with
status 200 carrying the full row including the generated id. -/
theorem create_success_response (s : Store) (p : ProfileCreate) :
    (create_profile s p none).2 = Resp.ok 200 (mkRow (freshId s) p) :=
  rfl

/-- Claim C8: starting from the empty store, after N successful creates
get_all returns exactly N entries, the k-th being the k-th create payload
extended with its generated id (the ids being 1 through N in order). -/
theorem get_all_after_creates (ps : List ProfileCreate) :
    (get_all_profiles (createMany emptyStore ps)).2 =
      Resp.ok 200 (List.zipWith mkRow (idsFrom 1 ps.length) ps) ∧
      (createMany emptyStore ps).length = ps.length := by
  have h := createMany_rows ps emptyStore
  have hfresh : freshId emptyStore = 1 := rfl
  rw [hfresh] at h
  constructor
  · simp only [get_all_profiles]
    rw [h]
    rfl
  · rw [h]
    simp [emptyStore, List.length_zipWith, idsFrom_length]

/-- Claim C9: update rewrites every payload field of the matched row but
never its id — the stored ids are exactly the same before and after any
update — and first_name stays non-null: after an update every row carries
either the payload's required first_name or a first_name already stored. -/
theorem update_preserves_ids_and_first_name (s : Store) (i : Nat) (p : ProfileCreate) :
    ((update_profile s i p none).1.map Profile.id = s.map Profile.id) ∧
      (∀ r : Profile, (setFields r p).id = r.id) ∧
      (∀ r ∈ (update_profile s i p none).1,
        r.first_name = p.first_name ∨ r ∈ s) := by
  refine ⟨?_, fun r => rfl, ?_⟩
  · cases h : findRow s i with
    | none => simp [update_profile, h]
    | some r => simp [update_profile, h, updateRows_map_id]
  · intro r hr
    cases h : findRow s i with
    | none =>
      right
      simpa [update_profile, h] using hr
    | some b =>
      have hr2 : r ∈ updateRows s i p := by
        simpa [update_profile, h] using hr
      exact mem_updateRows hr2

/-- Witness for C9 at the spec example: updating row 1 of the demo store
with first_name Ana and country PT. -/
theorem update_preserves_ids_and_first_name_witness :
    ((update_profile demoStore 1 pAnaPT none).1.map Profile.id = demoStore.map Profile.id) ∧
      (∀ r : Profile, (setFields r pAnaPT).id = r.id) ∧
      (∀ r ∈ (update_profile demoStore 1 pAnaPT none).1,
        r.first_name = pAnaPT.first_name ∨ r ∈ demoStore) :=
  update_preserves_ids_and_first_name demoStore 1 pAnaPT

/-- Claim C10: the read operations are pure readers: get (found or not),
get_all and the root endpoint hand back the store unchanged. -/
theorem reads_leave_store_unchanged (s : Store) (i : Nat) (u : String) :
    (get_profile s i).1 = s ∧ (get_all_profiles s).1 = s ∧ (read_root s u).1 = s := by
  refine ⟨?_, rfl, rfl⟩
  cases h : findRow s i <;> simp [get_profile, h]
